import Mathlib

namespace ZimaBlue

/-!
Shallow embedding of the Zima-Blue wallpaper generator core:
the in-memory response cache (`src/lib/cache.ts`), the NASA image-pool
endpoint with its fetch-with-retry primitive and pool finalization
(`app/api/nasa-images/route.ts`), the canvas compositor and the
generation orchestrator (`hooks/useWallpaperGeneration.ts`).
Times are epoch milliseconds as produced by `Date.now()`.
-/

/-! ### Response cache (`src/lib/cache.ts`, class `MemoryCache`) -/

/-- `CacheEntry<T> = { data, timestamp, ttl }`; `ttl` is in milliseconds. -/
structure CacheEntry (T : Type) where
  data : T
  timestamp : Nat
  ttl : Nat
deriving Repr, DecidableEq

/-- The private `Map<string, CacheEntry<unknown>>`, modelled extensionally. -/
def CacheStore (T : Type) : Type := String → Option (CacheEntry T)

/-- `set(key, data, ttlMinutes = 60)`: stores `{ data, timestamp: Date.now(),
ttl: ttlMinutes * 60 * 1000 }` under `key`.  `now` is the value of
`Date.now()` at the call. -/
def cacheSet {T : Type} (c : CacheStore T) (key : String) (data : T)
    (now : Nat) (ttlMinutes : Nat := 60) : CacheStore T :=
  fun k => if k = key then some ⟨data, now, ttlMinutes * 60 * 1000⟩ else c k

/-- `get(key)` at time `now`: returns the stored data unless the entry is
absent or expired (`Date.now() - entry.timestamp > entry.ttl`); an expired
entry is deleted on this access.  Returns the value together with the store
after the call.  JavaScript's possibly-negative `now - timestamp` and the
truncated natural subtraction agree on the comparison with the nonnegative
`ttl`. -/
def cacheGet {T : Type} (c : CacheStore T) (key : String) (now : Nat) :
    Option T × CacheStore T :=
  match c key with
  | none => (none, c)
  | some entry =>
    if entry.ttl < now - entry.timestamp then
      (none, fun k => if k = key then none else c k)
    else
      (some entry.data, c)

/-- `delete(key)`. -/
def cacheDelete {T : Type} (c : CacheStore T) (key : String) : CacheStore T :=
  fun k => if k = key then none else c k

/-- `cleanup()` at time `now`: deletes every entry with
`now - entry.timestamp > entry.ttl`. -/
def cacheCleanup {T : Type} (c : CacheStore T) (now : Nat) : CacheStore T :=
  fun k =>
    match c k with
    | none => none
    | some entry => if entry.ttl < now - entry.timestamp then none else some entry

/-- The empty store (a fresh `MemoryCache`, and the result of `clear()`). -/
def emptyStore (T : Type) : CacheStore T := fun _ => none

/-! ### Cache theorems -/

/-! ### `fetchWithRetry` (`app/api/nasa-images/route.ts`) -/

/-- The part of a `fetch` `Response` the retry loop inspects. -/
structure Response where
  status : Nat
deriving Repr, DecidableEq

/-- `response.ok`: status in the 200–299 range. -/
def Response.ok (r : Response) : Bool := 200 ≤ r.status && r.status ≤ 299

/-- Outcome of one `await fetch(url)`: a response, or a thrown error. -/
inductive FetchAttempt where
  | resp (r : Response)
  | thrown (e : String)
deriving Repr, DecidableEq

/-- Observable behaviour of one `fetchWithRetry` call: how many times
`fetch` was invoked, the `delay(...)` waits in order, and the returned
response or thrown error. -/
structure RetryRun where
  attempts : Nat
  delays : List Nat
  result : Except String Response

/-- The loop body of `fetchWithRetry`, from iteration `i` on; `fetchAt j` is
the outcome of the `fetch` performed in iteration `j`.  A non-ok response
with status 429 waits `2000 * (i+1)` and continues; any other non-ok
response throws `HTTP <status>` into the catch, which — like a thrown fetch
error — rethrows on the last iteration and otherwise waits `1000 * (i+1)`;
falling off the loop throws `Max retries exceeded`. -/
def fetchWithRetryGo (fetchAt : Nat → FetchAttempt) (retries i : Nat) : RetryRun :=
  if h : i < retries then
    match fetchAt i with
    | .resp r =>
      if r.ok then ⟨1, [], .ok r⟩
      else if r.status == 429 then
        let rest := fetchWithRetryGo fetchAt retries (i + 1)
        ⟨rest.attempts + 1, 2000 * (i + 1) :: rest.delays, rest.result⟩
      else
        if i == retries - 1 then
          ⟨1, [], .error ("HTTP " ++ toString r.status)⟩
        else
          let rest := fetchWithRetryGo fetchAt retries (i + 1)
          ⟨rest.attempts + 1, 1000 * (i + 1) :: rest.delays, rest.result⟩
    | .thrown e =>
      if i == retries - 1 then
        ⟨1, [], .error e⟩
      else
        let rest := fetchWithRetryGo fetchAt retries (i + 1)
        ⟨rest.attempts + 1, 1000 * (i + 1) :: rest.delays, rest.result⟩
  else ⟨0, [], .error "Max retries exceeded"⟩
termination_by retries - i

/-- `fetchWithRetry(url, retries = 3)`. -/
def fetchWithRetry (fetchAt : Nat → FetchAttempt) (retries : Nat := 3) : RetryRun :=
  fetchWithRetryGo fetchAt retries 0

/-- An attempt that does not produce an ok response. -/
def attemptFailed : FetchAttempt → Bool
  | .resp r => !r.ok
  | .thrown _ => true

/-- An attempt that produced a (non-ok) HTTP 429 response. -/
def is429 : FetchAttempt → Bool
  | .resp r => r.status == 429
  | .thrown _ => false

/-- Backoff after the failed iteration `i`: `2000*(i+1)` on 429,
`1000*(i+1)` otherwise. -/
def retryDelay (i : Nat) (a : FetchAttempt) : Nat :=
  if is429 a then 2000 * (i + 1) else 1000 * (i + 1)

/-! ### Pool finalization inside `GET` (`app/api/nasa-images/route.ts`) -/

/-- The route's static `fallbackImages` list (8 Unsplash URLs). -/
def fallbackImages : List String :=
  ["https://images.unsplash.com/photo-1419242902214-272b3f66ee7a?w=3840&h=2160&fit=crop&auto=format",
   "https://images.unsplash.com/photo-1502134249126-9f3755a50d78?w=3840&h=2160&fit=crop&auto=format",
   "https://images.unsplash.com/photo-1506905925346-21bda4d32df4?w=3840&h=2160&fit=crop&auto=format",
   "https://images.unsplash.com/photo-1543722530-d2c3201371e7?w=3840&h=2160&fit=crop&auto=format",
   "https://images.unsplash.com/photo-1581833971358-2c8b550f87b3?w=3840&h=2160&fit=crop&auto=format",
   "https://images.unsplash.com/photo-1464802686167-b939a6910659?w=3840&h=2160&fit=crop&auto=format",
   "https://images.unsplash.com/photo-1518066000714-58c45f1a2c0a?w=3840&h=2160&fit=crop&auto=format",
   "https://images.unsplash.com/photo-1529963183134-61a90db47eaf?w=3840&h=2160&fit=crop&auto=format"]

/-- `[...new Set(list)]`: deduplication keeping the first occurrence of each
string, in order. -/
def jsSetDedup : List String → List String
  | [] => []
  | x :: xs => x :: jsSetDedup (xs.filter (fun y => y ≠ x))
termination_by l => l.length
decreasing_by
  simp only [List.length_cons]
  exact Nat.lt_succ_of_le (List.length_filter_le _ _)

/-- `finalImages`: the aggregated bare URLs, with the fallback list appended
exactly when fewer than 15 were aggregated. -/
def mergedCandidates (imageUrls : List String) : List String :=
  if imageUrls.length < 15 then imageUrls ++ fallbackImages else imageUrls

/-- The route's pool finalization: merge fallbacks when below the floor,
deduplicate via `new Set`, drop strings rejected by the `new URL(url)`
syntax check (`validUrl`), shuffle (`sort` with a random comparator, some
permutation of its input), and truncate to 20. -/
def finalizePool (imageUrls : List String) (validUrl : String → Bool)
    (shuffle : List String → List String) : List String :=
  let uniqueImages := (jsSetDedup (mergedCandidates imageUrls)).filter validUrl
  (shuffle uniqueImages).take 20

/-- What C4 asserts of the finalized pool: fallbacks merged exactly below
the floor of 15, no duplicate URL, every element valid, elements drawn from
the merged candidates, and length `min 20 (number of distinct valid
candidates after the fallback merge)`. -/
def finalizePoolOk (imageUrls : List String) (validUrl : String → Bool)
    (shuffle : List String → List String) : Prop :=
  (imageUrls.length < 15 →
    mergedCandidates imageUrls = imageUrls ++ fallbackImages) ∧
  (15 ≤ imageUrls.length → mergedCandidates imageUrls = imageUrls) ∧
  (finalizePool imageUrls validUrl shuffle).Nodup ∧
  (∀ u ∈ finalizePool imageUrls validUrl shuffle, validUrl u = true) ∧
  (∀ u ∈ finalizePool imageUrls validUrl shuffle, u ∈ mergedCandidates imageUrls) ∧
  (finalizePool imageUrls validUrl shuffle).length =
    min 20 ((mergedCandidates imageUrls).filter validUrl).toFinset.card

/-! ### Compositor: cover fit (`useWallpaperGeneration.ts`,
`generateWallpaper` / `generatePreviewImage`) -/

/-- `scale = Math.max(width / img.width, height / img.height)`. -/
def coverScale (w h W H : ℚ) : ℚ := max (W / w) (H / h)

/-- `scaledWidth = img.width * scale`. -/
def coverScaledWidth (w h W H : ℚ) : ℚ := w * coverScale w h W H

/-- `scaledHeight = img.height * scale`. -/
def coverScaledHeight (w h W H : ℚ) : ℚ := h * coverScale w h W H

/-- `x = (width - scaledWidth) / 2`. -/
def coverOffsetX (w h W H : ℚ) : ℚ := (W - coverScaledWidth w h W H) / 2

/-- `y = (height - scaledHeight) / 2`. -/
def coverOffsetY (w h W H : ℚ) : ℚ := (H - coverScaledHeight w h W H) / 2

/-- What C5 asserts: the scaled image meets or exceeds the target on both
axes, matches it exactly on at least one, and the centered placement leaves
no uncovered border on `[0,W] × [0,H]`. -/
def coverFitOk (w h W H : ℚ) : Prop :=
  W ≤ coverScaledWidth w h W H ∧
  H ≤ coverScaledHeight w h W H ∧
  (coverScaledWidth w h W H = W ∨ coverScaledHeight w h W H = H) ∧
  coverOffsetX w h W H ≤ 0 ∧
  W ≤ coverOffsetX w h W H + coverScaledWidth w h W H ∧
  coverOffsetY w h W H ≤ 0 ∧
  H ≤ coverOffsetY w h W H + coverScaledHeight w h W H

/-! ### Compositor: accent rectangle -/

/-- `ZIMA_BLUE` (`types/wallpaper.ts`). -/
def ZIMA_BLUE : String := "#5BC2E7"

/-- The drawn accent rectangle: the `fillRect` arguments and the
`fillStyle` in effect. -/
structure AccentRect where
  rectWidth : ℤ
  rectHeight : ℤ
  rectX : ℤ
  rectY : ℤ
  fillStyle : String
deriving Repr, DecidableEq

/-- The rectangle drawing step of `generateWallpaper` (identical formulas in
`generatePreviewImage`): `rectWidth = floor(width * (0.05 + u * 0.10))`,
`rectHeight` analogous with draw `v`, `rectX = floor((width - rectWidth)/2)`,
`rectY = floor((height - rectHeight)/2)`, fill style `ZIMA_BLUE`; `u` and
`v` are the two fresh `Math.random()` draws. -/
def drawAccentRect (W H : ℕ) (u v : ℚ) : AccentRect :=
  let rectWidth : ℤ := ⌊(W : ℚ) * (0.05 + u * 0.10)⌋
  let rectHeight : ℤ := ⌊(H : ℚ) * (0.05 + v * 0.10)⌋
  let rectX : ℤ := ⌊((W : ℚ) - (rectWidth : ℚ)) / 2⌋
  let rectY : ℤ := ⌊((H : ℚ) - (rectHeight : ℚ)) / 2⌋
  ⟨rectWidth, rectHeight, rectX, rectY, ZIMA_BLUE⟩

/-- What C6 asserts: 5–15%-of-target side lengths within floor rounding,
containment in the canvas, centering within 1px on both axes, and the fixed
fill color. -/
def accentRectOk (W H : ℕ) (u v : ℚ) : Prop :=
  let r := drawAccentRect W H u v
  ((W : ℚ) * 0.05 - 1 < (r.rectWidth : ℚ) ∧ (r.rectWidth : ℚ) ≤ (W : ℚ) * 0.15) ∧
  ((H : ℚ) * 0.05 - 1 < (r.rectHeight : ℚ) ∧ (r.rectHeight : ℚ) ≤ (H : ℚ) * 0.15) ∧
  (0 ≤ r.rectX ∧ r.rectX + r.rectWidth ≤ (W : ℤ) ∧
   0 ≤ r.rectY ∧ r.rectY + r.rectHeight ≤ (H : ℤ)) ∧
  (0 ≤ (W : ℤ) - (2 * r.rectX + r.rectWidth) ∧
   (W : ℤ) - (2 * r.rectX + r.rectWidth) ≤ 1 ∧
   0 ≤ (H : ℤ) - (2 * r.rectY + r.rectHeight) ∧
   (H : ℤ) - (2 * r.rectY + r.rectHeight) ≤ 1) ∧
  r.fillStyle = ZIMA_BLUE

/-! ### Generation orchestrator (`useWallpaperGeneration.ts`,
`loadImageAsBlob` / `generateWallpaper` / `generateAllWallpapers`) -/

/-- An opaque decoded raster image (the `HTMLImageElement` the loader
resolves with). -/
structure DecodedImage where
  tag : Nat
deriving Repr, DecidableEq

/-- The opaque bytes a successful fetch turns into an object URL. -/
structure Blob where
  tag : Nat
deriving Repr, DecidableEq

/-- The environment one generation pass runs in: the URL `Math.random`
samples for each slot, the outcome of the fetch/`blob()` stage for a URL
(`none` = the `try` block throws before returning), the outcome of decoding
a blob in an `Image` element (`none` = `img.onerror`), the outcome of the
fetch stage for the fixed Unsplash fallback URL, and the data URLs the two
canvases encode for a given slot and image. -/
structure GenEnv where
  sample : Nat → String
  fetchPrimary : String → Option Blob
  decode : Blob → Option DecodedImage
  fetchFallback : Option Blob
  renderPreview : Nat → DecodedImage → String
  renderFull : Nat → DecodedImage → String

/-- `loadImageAsBlob(imageUrl)`.  Only a throw inside the `try` block — the
fetch rejecting, a non-ok status, or `blob()` failing — reaches the
`catch` and attempts the fixed Unsplash fallback.  The decode `Promise` is
*returned without `await`*, so an `img.onerror` rejection of the primary's
blob bypasses the `try/catch` entirely and rejects the call without ever
trying the fallback.  The fallback path has no further protection: its
fetch or decode failing rejects the call (the error strings stand for
whichever rejection reason occurred). -/
def loadImageAsBlob (env : GenEnv) (url : String) : Except String DecodedImage :=
  match env.fetchPrimary url with
  | some blob =>
    match env.decode blob with
    | some img => .ok img
    | none => .error "Failed to load image from blob"
  | none =>
    match env.fetchFallback with
    | some blob =>
      match env.decode blob with
      | some img => .ok img
      | none => .error "Fallback image failed to load from blob"
    | none => .error "Fallback image also failed to load"

/-- `generatePreviewImage(index, img, format)`: encode the preview canvas
and reject data URLs that are empty, the blank sentinel `data:,`, or
implausibly short. -/
def generatePreviewImage (env : GenEnv) (i : Nat) (img : DecodedImage) :
    Except String String :=
  let dataUrl := env.renderPreview i img
  if dataUrl = "" ∨ dataUrl = "data:," ∨ dataUrl.length < 100 then
    .error ("Invalid preview data URL generated for index " ++ toString i)
  else .ok dataUrl

/-- `{ fullRes, preview }` (`types/wallpaper.ts`). -/
structure WallpaperResult where
  fullRes : String
  preview : String
deriving Repr, DecidableEq

/-- `generateWallpaper(index, format, spaceImageSources)`: load the sampled
image, render the preview then the full resolution, validate both data
URLs; any error is rethrown wrapped in `Failed to generate wallpaper`. -/
def generateWallpaper (env : GenEnv) (i : Nat) : Except String WallpaperResult :=
  match loadImageAsBlob env (env.sample i) with
  | .error e => .error ("Failed to generate wallpaper: " ++ e)
  | .ok img =>
    match generatePreviewImage env i img with
    | .error e => .error ("Failed to generate wallpaper: " ++ e)
    | .ok preview =>
      let fullRes := env.renderFull i img
      if fullRes = "" ∨ fullRes = "data:," ∨ preview = "" ∨ preview = "data:," then
        .error ("Failed to generate wallpaper: " ++ "Invalid data URL generated")
      else
        .ok ⟨fullRes, preview⟩

/-- The React state a pass reads and writes: `wallpapers`,
`previewImages`, `imageLoadErrors`. -/
structure GenState where
  wallpapers : List String
  previewImages : List String
  imageLoadErrors : List Bool
deriving Repr, DecidableEq

/-- `generateAllWallpapers(format, spaceImageSources)` acting on the state:
slots 0, 1, 2 are awaited in order inside one `try`; only if all three
succeed are the three state arrays replaced (errors reset to all-false);
the single `catch` only logs, leaving the previous state in place. -/
def generateAllWallpapers (env : GenEnv) (s : GenState) : GenState :=
  match generateWallpaper env 0 with
  | .error _ => s
  | .ok r0 =>
    match generateWallpaper env 1 with
    | .error _ => s
    | .ok r1 =>
      match generateWallpaper env 2 with
      | .error _ => s
      | .ok r2 =>
        ⟨[r0.fullRes, r1.fullRes, r2.fullRes],
         [r0.preview, r1.preview, r2.preview],
         [false, false, false]⟩

/-- A plausibly long preview data URL (the length check demands ≥ 100). -/
def previewStub : String :=
  "data:image/jpeg;base64,AAAAAAAAAAAAAAAAAAAAAAAAAAAAAAAAAAAAAAAAAAAAAAAAAAAAAAAAAAAAAAAAAAAAAAAAAAAAAAAAAAAAAAAAAAAA"

/-- A pass in which slot 1's sampled URL `b` fetches fine but its blob
fails to decode (`img.onerror`); slots 0 and 2 load fine, and the fixed
fallback is fully available — fetchable and decodable. -/
def envSlotFail : GenEnv :=
  ⟨fun i => ["a", "b", "c"].getD i "a",
   fun url => if url = "b" then some ⟨1⟩ else some ⟨0⟩,
   fun b => if b = ⟨1⟩ then none else some ⟨0⟩,
   some ⟨0⟩,
   fun _ _ => previewStub,
   fun _ _ => "data:image/png;base64,fullstub"⟩

/-- The same pass except slot 1's blob decodes too. -/
def envAllOk : GenEnv :=
  ⟨fun i => ["a", "b", "c"].getD i "a",
   fun url => if url = "b" then some ⟨1⟩ else some ⟨0⟩,
   fun _ => some ⟨0⟩,
   some ⟨0⟩,
   fun _ _ => previewStub,
   fun _ _ => "data:image/png;base64,fullstub"⟩

/-- The state left by an earlier pass. -/
def prevState : GenState :=
  ⟨["old0", "old1", "old2"], ["oldp0", "oldp1", "oldp2"], [false, false, false]⟩

/-- The image slot `i` composites when the fixed fallback decodes to `f`:
its own sampled image when it fetches and decodes, or `f` when its fetch
stage fails. -/
def slotImage (env : GenEnv) (f : DecodedImage) (i : Nat) : DecodedImage :=
  match env.fetchPrimary (env.sample i) with
  | some b => (env.decode b).getD f
  | none => f

/-- The state a fully successful pass installs: each slot's pair rendered
from its own `slotImage`, error flags reset. -/
def passResult (env : GenEnv) (f : DecodedImage) : GenState :=
  ⟨[env.renderFull 0 (slotImage env f 0), env.renderFull 1 (slotImage env f 1),
    env.renderFull 2 (slotImage env f 2)],
   [env.renderPreview 0 (slotImage env f 0), env.renderPreview 1 (slotImage env f 1),
    env.renderPreview 2 (slotImage env f 2)],
   [false, false, false]⟩

/-- A pass in which slot 1's sampled URL fails at the *fetch* stage (the
caught kind of failure), every fetched blob decodes, and the fallback blob
`⟨9⟩` fetches and decodes to `⟨2⟩`. -/
def envWithFallback : GenEnv :=
  ⟨fun i => ["a", "b", "c"].getD i "a",
   fun url => if url = "b" then none else some ⟨0⟩,
   fun _ => some ⟨2⟩,
   some ⟨9⟩,
   fun _ _ => previewStub,
   fun _ _ => "data:image/png;base64,fullstub"⟩

/-! ### The image-pool GET handler (`app/api/nasa-images/route.ts`) -/

/-- Per-category aggregation outcome: the bare URLs produced by
`getAPODImages`, `getMarsRoverImages` and `getEarthImages`. -/
structure AggOutcome where
  apod : List String
  mars : List String
  earth : List String
deriving Repr, DecidableEq

/-- The success `result` object the route builds and caches. -/
structure StoredResult where
  images : List String
  source : String
  nasaImagesCount : Nat
  apodCount : Nat
  marsCount : Nat
  earthCount : Nat
  totalReturned : Nat
  timestamp : Nat
deriving Repr, DecidableEq

/-- The JSON body a GET returns.  Fields that some paths omit are
`Option`-valued (`none` = the key is absent from the JSON object). -/
structure PoolBody where
  success : Bool
  images : List String
  source : String
  nasaImagesCount : Nat
  apodCount : Option Nat
  marsCount : Option Nat
  earthCount : Option Nat
  totalReturned : Nat
  timestamp : Option Nat
  cached : Option Bool
  cacheAge : Option Nat
  errorMsg : Option String
deriving Repr, DecidableEq

/-- `'nasa-images-combined'`. -/
def cacheKey : String := "nasa-images-combined"

/-- The cached-path body: `{ ...cachedResult, cached: true, cache_age }`. -/
def bodyOfStored (st : StoredResult) (now : Nat) : PoolBody :=
  ⟨true, st.images, st.source, st.nasaImagesCount, some st.apodCount,
   some st.marsCount, some st.earthCount, st.totalReturned, some st.timestamp,
   some true, some ((now - st.timestamp) / 1000 / 60), none⟩

/-- The route's `GET()` at time `now`.  Inputs are the process cache, the
outcome of the parallel aggregation (`Except.error` when anything inside
the `try` throws), the platform's `new URL` syntax check and the
random-comparator sort.  Returns the response body and the cache as left
behind (a fresh success is stored with a 120-minute TTL). -/
def GETroute (store : CacheStore StoredResult) (now : Nat)
    (agg : Except String AggOutcome) (validUrl : String → Bool)
    (shuffle : List String → List String) : PoolBody × CacheStore StoredResult :=
  match cacheGet store cacheKey now with
  | (some st, store1) => (bodyOfStored st now, store1)
  | (none, store1) =>
    match agg with
    | .error e =>
      (⟨false, fallbackImages, "fallback", 0, none, none, none,
        fallbackImages.length, none, none, none, some e⟩, store1)
    | .ok a =>
      let imageUrls := a.apod ++ a.mars ++ a.earth
      let shuffledImages := finalizePool imageUrls validUrl shuffle
      let src := if 0 < imageUrls.length then "nasa_api" else "fallback"
      let result : StoredResult :=
        ⟨shuffledImages, src, imageUrls.length, a.apod.length, a.mars.length,
         a.earth.length, shuffledImages.length, now⟩
      (⟨true, shuffledImages, src, imageUrls.length, some a.apod.length,
        some a.mars.length, some a.earth.length, shuffledImages.length,
        some now, some false, none, none⟩,
       cacheSet store1 cacheKey result now 120)

/-! ### Theorems -/

/-- C3: a value set with `ttlMinutes = t` at time `now` is returned by every
`get` strictly before `now + t` minutes, and every `get` strictly after
`now + t` minutes returns absent and evicts the entry, after any earlier
cleanup sweep or none. -/
theorem cache_ttl_get {T : Type} (c : CacheStore T) (key : String) (data : T)
    (now t q : Nat) :
    (q < now + t * 60 * 1000 →
      (cacheGet (cacheSet c key data now t) key q).1 = some data) ∧
    (now + t * 60 * 1000 < q →
      (cacheGet (cacheSet c key data now t) key q).1 = none ∧
      (cacheGet (cacheSet c key data now t) key q).2 key = none) ∧
    (∀ s : Nat, s ≤ q →
      (cacheGet (cacheCleanup (cacheSet c key data now t) s) key q).1 =
      (cacheGet (cacheSet c key data now t) key q).1) := by
  have hkey : cacheSet c key data now t key = some ⟨data, now, t * 60 * 1000⟩ := by
    simp [cacheSet]
  refine ⟨?_, ?_, ?_⟩
  · intro hq
    have hle : ¬ (t * 60 * 1000 < q - now) := by omega
    simp [cacheGet, hkey, hle]
  · intro hq
    have hlt : t * 60 * 1000 < q - now := by omega
    simp [cacheGet, hkey, hlt]
  · intro s hs
    by_cases hexp : t * 60 * 1000 < s - now
    · -- the sweep evicts the entry, but then the get at `q ≥ s` is expired too
      have hcl : cacheCleanup (cacheSet c key data now t) s key = none := by
        simp [cacheCleanup, hkey, hexp]
      have hq : t * 60 * 1000 < q - now := by omega
      simp [cacheGet, hcl, hkey, hq]
    · -- the sweep keeps the entry untouched
      have hcl : cacheCleanup (cacheSet c key data now t) s key =
          some ⟨data, now, t * 60 * 1000⟩ := by
        simp [cacheCleanup, hkey, hexp]
      by_cases hq : t * 60 * 1000 < q - now
      · simp [cacheGet, hcl, hkey, hq]
      · simp [cacheGet, hcl, hkey, hq]

/-- C3 witness at `t = 1` minute. -/
theorem cache_ttl_get_witness :
    ((cacheGet (cacheSet (emptyStore Nat) "k" 7 1000 1) "k" 60999).1 = some 7) ∧
    ((cacheGet (cacheSet (emptyStore Nat) "k" 7 1000 1) "k" 61001).1 = none) := by
  refine ⟨?_, ?_⟩
  · exact (cache_ttl_get (emptyStore Nat) "k" 7 1000 1 60999).1 (by omega)
  · exact ((cache_ttl_get (emptyStore Nat) "k" 7 1000 1 61001).2.1 (by omega)).1

/-- C9: expiry is strict — a `get` whose elapsed time equals the TTL exactly
still returns the value and leaves the store unchanged; eviction happens only
when the elapsed time strictly exceeds the TTL. -/
theorem cache_expiry_strict {T : Type} (c : CacheStore T) (key : String)
    (entry : CacheEntry T) (q : Nat) (hk : c key = some entry)
    (hq : q - entry.timestamp ≤ entry.ttl) :
    cacheGet c key q = (some entry.data, c) := by
  have : ¬ (entry.ttl < q - entry.timestamp) := by omega
  simp [cacheGet, hk, this]

/-- C9 witness: the entry set at 1000 with a 1-minute TTL is still returned
at exactly 61000 = createdAt + ttl. -/
theorem cache_expiry_strict_witness :
    (cacheGet (cacheSet (emptyStore Nat) "k" 7 1000 1) "k" 61000).1 = some 7 := by
  have h := cache_expiry_strict (cacheSet (emptyStore Nat) "k" 7 1000 1) "k"
    ⟨7, 1000, 60000⟩ 61000 (by simp [cacheSet]) (by decide)
  simpa using congrArg Prod.fst h

/-- C10: `cleanup()` removes exactly the expired entries: an entry whose
elapsed time strictly exceeds its TTL is gone, an absent key stays absent,
and an unexpired entry survives with payload, timestamp and TTL unchanged,
so a later `get` on it returns the same value as before the sweep. -/
theorem cache_cleanup_exact {T : Type} (c : CacheStore T) (now : Nat) (k : String) :
    (∀ entry : CacheEntry T, c k = some entry → entry.ttl < now - entry.timestamp →
      cacheCleanup c now k = none) ∧
    (c k = none → cacheCleanup c now k = none) ∧
    (∀ entry : CacheEntry T, c k = some entry → now - entry.timestamp ≤ entry.ttl →
      cacheCleanup c now k = some entry ∧
      ∀ q : Nat, (cacheGet (cacheCleanup c now) k q).1 = (cacheGet c k q).1) := by
  refine ⟨?_, ?_, ?_⟩
  · intro entry hk hexp
    have : entry.ttl < now - entry.timestamp := hexp
    simp [cacheCleanup, hk, this]
  · intro hk
    simp [cacheCleanup, hk]
  · intro entry hk hfresh
    have hnot : ¬ (entry.ttl < now - entry.timestamp) := by omega
    have hcl : cacheCleanup c now k = some entry := by
      simp [cacheCleanup, hk, hnot]
    refine ⟨hcl, ?_⟩
    intro q
    by_cases hq : entry.ttl < q - entry.timestamp
    · simp [cacheGet, hcl, hk, hq]
    · simp [cacheGet, hcl, hk, hq]

/-- C10 witness: a sweep at 5000 drops the expired entry `"a"` (1-ms TTL)
and keeps the fresh entry `"b"` intact for a later `get`. -/
theorem cache_cleanup_exact_witness :
    cacheCleanup (cacheSet (cacheSet (emptyStore Nat) "a" 1 0 0) "b" 2 4000 60) 5000 "a"
      = none ∧
    cacheCleanup (cacheSet (cacheSet (emptyStore Nat) "a" 1 0 0) "b" 2 4000 60) 5000 "b"
      = some ⟨2, 4000, 3600000⟩ := by
  constructor
  · exact (cache_cleanup_exact
      (cacheSet (cacheSet (emptyStore Nat) "a" 1 0 0) "b" 2 4000 60) 5000 "a").1
      ⟨1, 0, 0⟩ (by simp [cacheSet]) (by decide)
  · exact ((cache_cleanup_exact
      (cacheSet (cacheSet (emptyStore Nat) "a" 1 0 0) "b" 2 4000 60) 5000 "b").2.2
      ⟨2, 4000, 3600000⟩ (by simp [cacheSet]) (by decide)).1

lemma go_mid_failed (fetchAt : Nat → FetchAttempt) (retries i : Nat)
    (hfail : attemptFailed (fetchAt i) = true) (hi : i + 1 < retries) :
    fetchWithRetryGo fetchAt retries i =
      ⟨(fetchWithRetryGo fetchAt retries (i + 1)).attempts + 1,
       retryDelay i (fetchAt i) :: (fetchWithRetryGo fetchAt retries (i + 1)).delays,
       (fetchWithRetryGo fetchAt retries (i + 1)).result⟩ := by
  have hlt : i < retries := by omega
  have hne : (i == retries - 1) = false := by
    simp only [beq_eq_false_iff_ne]; omega
  rw [fetchWithRetryGo]
  rcases h : fetchAt i with r | e
  · rw [h] at hfail
    simp only [attemptFailed, Bool.not_eq_true'] at hfail
    by_cases h429 : r.status = 429
    · simp [hlt, hfail, h429, retryDelay, is429, h]
    · simp [hlt, hfail, h429, hne, retryDelay, is429, h]
  · simp [hlt, hne, retryDelay, is429, h]

lemma go_last_failed (fetchAt : Nat → FetchAttempt) (retries i : Nat)
    (hfail : attemptFailed (fetchAt i) = true) (hi : i + 1 = retries) :
    (fetchWithRetryGo fetchAt retries i).attempts = 1 ∧
    (fetchWithRetryGo fetchAt retries i).delays =
      (if is429 (fetchAt i) then [2000 * (i + 1)] else []) ∧
    ∃ e, (fetchWithRetryGo fetchAt retries i).result = .error e := by
  have hlt : i < retries := by omega
  have hlast : (i == retries - 1) = true := by
    simp only [beq_iff_eq]; omega
  have hstop : ¬ (i + 1 < retries) := by omega
  rw [fetchWithRetryGo]
  rcases h : fetchAt i with r | e
  · rw [h] at hfail
    simp only [attemptFailed, Bool.not_eq_true'] at hfail
    by_cases h429 : r.status = 429
    · rw [fetchWithRetryGo]
      simp [hlt, hfail, h429, is429, h, hstop]
    · simp [hlt, hfail, h429, hlast, is429, h]
  · simp [hlt, hlast, is429, h]

/-- C7: under the default `retries = 3`, a call whose every attempt fails
performs exactly 3 fetch attempts and ends in a thrown error; the wait after
a failed iteration is `2000ms × attemptNumber` on HTTP 429 and
`1000ms × attemptNumber` on any other failure (a final 429 also waits before
the loop exits). -/
theorem fetchWithRetry_all_fail (fetchAt : Nat → FetchAttempt)
    (hfail : ∀ j, j < 3 → attemptFailed (fetchAt j) = true) :
    (fetchWithRetry fetchAt 3).attempts = 3 ∧
    (∃ e, (fetchWithRetry fetchAt 3).result = .error e) ∧
    (fetchWithRetry fetchAt 3).delays =
      retryDelay 0 (fetchAt 0) :: retryDelay 1 (fetchAt 1) ::
        (if is429 (fetchAt 2) then [2000 * 3] else []) := by
  have h0 := go_mid_failed fetchAt 3 0 (hfail 0 (by omega)) (by omega)
  have h1 := go_mid_failed fetchAt 3 1 (hfail 1 (by omega)) (by omega)
  have h2 := go_last_failed fetchAt 3 2 (hfail 2 (by omega)) rfl
  obtain ⟨ha2, hd2, e, he2⟩ := h2
  refine ⟨?_, ⟨e, ?_⟩, ?_⟩
  · rw [fetchWithRetry, h0, h1]; simp [ha2]
  · rw [fetchWithRetry, h0, h1]; simpa using he2
  · rw [fetchWithRetry, h0, h1]; simp [hd2]

/-- C7 witness: all three fetches throw a network error. -/
theorem fetchWithRetry_all_fail_witness :
    (fetchWithRetry (fun _ => .thrown "network down") 3).attempts = 3 ∧
    (∃ e, (fetchWithRetry (fun _ => .thrown "network down") 3).result = .error e) ∧
    (fetchWithRetry (fun _ => .thrown "network down") 3).delays =
      retryDelay 0 (.thrown "network down") :: retryDelay 1 (.thrown "network down") ::
        (if is429 (FetchAttempt.thrown "network down") then [2000 * 3] else []) :=
  fetchWithRetry_all_fail (fun _ => .thrown "network down") (fun _ _ => rfl)

lemma go_result_ok_aux (fetchAt : Nat → FetchAttempt) (retries : Nat) :
    ∀ n i r, retries - i ≤ n →
      (fetchWithRetryGo fetchAt retries i).result = Except.ok r → r.ok = true := by
  intro n
  induction n with
  | zero =>
    intro i r hle h
    have hi : ¬ (i < retries) := by omega
    rw [fetchWithRetryGo] at h
    simp [hi] at h
  | succ n ih =>
    intro i r hle h
    rw [fetchWithRetryGo] at h
    by_cases hi : i < retries
    · rcases ha : fetchAt i with s | e <;> rw [ha] at h
      · by_cases hok : s.ok = true
        · simp [hi, hok] at h
          exact h ▸ hok
        · by_cases h429 : s.status = 429
          · simp [hi, hok, h429] at h
            exact ih (i + 1) r (by omega) h
          · by_cases hlast : (i == retries - 1) = true
            · simp [hi, hok, h429, hlast] at h
            · simp [hi, hok, h429, hlast] at h
              exact ih (i + 1) r (by omega) h
      · by_cases hlast : (i == retries - 1) = true
        · simp [hi, hlast] at h
        · simp [hi, hlast] at h
          exact ih (i + 1) r (by omega) h
    · simp [hi] at h

/-- C8: whenever `fetchWithRetry` returns a response normally (for any retry
count), that response is ok (status 200–299); a non-ok final outcome always
ends in a thrown error. -/
theorem fetchWithRetry_ok_of_returns (fetchAt : Nat → FetchAttempt)
    (retries : Nat) (r : Response)
    (h : (fetchWithRetry fetchAt retries).result = Except.ok r) : r.ok = true :=
  go_result_ok_aux fetchAt retries retries 0 r (by omega) h

/-- C8 witness: a first-attempt 200 response is returned and is ok. -/
theorem fetchWithRetry_ok_of_returns_witness : Response.ok ⟨200⟩ = true :=
  fetchWithRetry_ok_of_returns (fun _ => .resp ⟨200⟩) 3 ⟨200⟩
    (by rw [fetchWithRetry, fetchWithRetryGo]; simp [Response.ok])

lemma mem_jsSetDedup : ∀ (l : List String) (x : String), x ∈ jsSetDedup l ↔ x ∈ l := by
  intro l
  induction l using jsSetDedup.induct with
  | case1 => intro x; simp [jsSetDedup]
  | case2 y ys ih =>
    intro x
    rw [jsSetDedup]
    simp only [List.mem_cons, ih, List.mem_filter]
    by_cases hxy : x = y
    · simp [hxy]
    · simp [hxy]

lemma nodup_jsSetDedup : ∀ l : List String, (jsSetDedup l).Nodup := by
  intro l
  induction l using jsSetDedup.induct with
  | case1 => simp [jsSetDedup]
  | case2 y ys ih =>
    rw [jsSetDedup]
    refine List.nodup_cons.mpr ⟨?_, ih⟩
    intro hmem
    have := (mem_jsSetDedup _ y).mp hmem
    simp [List.mem_filter] at this

lemma length_filter_jsSetDedup (l : List String) (p : String → Bool) :
    ((jsSetDedup l).filter p).length = (l.filter p).toFinset.card := by
  have hnodup : ((jsSetDedup l).filter p).Nodup := (nodup_jsSetDedup l).filter p
  have hset : ((jsSetDedup l).filter p).toFinset = (l.filter p).toFinset := by
    ext x
    simp [List.mem_toFinset, List.mem_filter, mem_jsSetDedup]
  calc ((jsSetDedup l).filter p).length
      = ((jsSetDedup l).filter p).toFinset.card :=
        (List.toFinset_card_of_nodup hnodup).symm
    _ = (l.filter p).toFinset.card := by rw [hset]

lemma finalizePool_props (imageUrls : List String) (validUrl : String → Bool)
    (shuffle : List String → List String)
    (hshuffle : ∀ l, (shuffle l).Perm l) :
    finalizePoolOk imageUrls validUrl shuffle := by
  set uniq := (jsSetDedup (mergedCandidates imageUrls)).filter validUrl with huniq
  have hperm := hshuffle uniq
  have hnodup_uniq : uniq.Nodup := (nodup_jsSetDedup _).filter validUrl
  have hnodup_shuffle : (shuffle uniq).Nodup := hperm.symm.nodup hnodup_uniq
  have hmem : ∀ u ∈ finalizePool imageUrls validUrl shuffle, u ∈ uniq := by
    intro u hu
    have : u ∈ shuffle uniq := (List.take_sublist _ _).subset hu
    exact hperm.mem_iff.mp this
  refine ⟨fun h => by simp [mergedCandidates, h],
          fun h => by simp [mergedCandidates, Nat.not_lt.mpr h], ?_, ?_, ?_, ?_⟩
  · exact (List.take_sublist _ _).nodup hnodup_shuffle
  · intro u hu
    exact (List.mem_filter.mp (hmem u hu)).2
  · intro u hu
    exact (mem_jsSetDedup _ u).mp (List.mem_filter.mp (hmem u hu)).1
  · calc (finalizePool imageUrls validUrl shuffle).length
        = min 20 (shuffle uniq).length := List.length_take _ _
      _ = min 20 uniq.length := by rw [hperm.length_eq]
      _ = min 20 ((mergedCandidates imageUrls).filter validUrl).toFinset.card := by
          rw [huniq, length_filter_jsSetDedup]

/-- C4: for every candidate URL list, every URL-syntax predicate and every
behaviour of the random-comparator shuffle that permutes its input, the
finalized pool satisfies `finalizePoolOk`: fallbacks merged exactly below
the floor of 15, no duplicates, only valid URLs drawn from the merged
candidates, and length `min 20 (distinct valid candidates)`. -/
theorem finalizePool_spec (imageUrls : List String) (validUrl : String → Bool)
    (shuffle : List String → List String)
    (hshuffle : ∀ l, (shuffle l).Perm l) :
    finalizePoolOk imageUrls validUrl shuffle :=
  finalizePool_props imageUrls validUrl shuffle hshuffle

/-- C4 witness: a three-element candidate list with a duplicate and an
invalid URL, identity shuffle, scheme-prefix validity. -/
theorem finalizePool_spec_witness :
    finalizePoolOk ["https://a.jpg", "https://a.jpg", "nota url"]
      (fun u => u.startsWith "https://") (fun l => l) :=
  finalizePool_spec ["https://a.jpg", "https://a.jpg", "nota url"]
    (fun u => u.startsWith "https://") (fun l => l) (fun l => List.Perm.refl l)

/-- C5: for every source image of positive size and every target, the
compositor's cover fit satisfies `coverFitOk`. -/
theorem cover_fit_correct (w h W H : ℚ) (hw : 0 < w) (hh : 0 < h)
    (hW : 0 ≤ W) (hH : 0 ≤ H) : coverFitOk w h W H := by
  have hww : w * (W / w) = W := by field_simp
  have hhh : h * (H / h) = H := by field_simp
  have hsw : W ≤ coverScaledWidth w h W H := by
    have := mul_le_mul_of_nonneg_left (le_max_left (W / w) (H / h)) hw.le
    rw [hww] at this
    exact this
  have hsh : H ≤ coverScaledHeight w h W H := by
    have := mul_le_mul_of_nonneg_left (le_max_right (W / w) (H / h)) hh.le
    rw [hhh] at this
    exact this
  refine ⟨hsw, hsh, ?_, ?_, ?_, ?_, ?_⟩
  · rcases max_choice (W / w) (H / h) with hc | hc
    · left
      rw [coverScaledWidth, coverScale, hc, hww]
    · right
      rw [coverScaledHeight, coverScale, hc, hhh]
  · rw [coverOffsetX]; linarith
  · rw [coverOffsetX]; linarith
  · rw [coverOffsetY]; linarith
  · rw [coverOffsetY]; linarith

/-- C5 witness: spec scenario — a 4000×3000 source on the 3840×2160 desktop
target (scale 0.96, vertical overflow cropped). -/
theorem cover_fit_correct_witness : coverFitOk 4000 3000 3840 2160 :=
  cover_fit_correct 4000 3000 3840 2160 (by norm_num) (by norm_num)
    (by norm_num) (by norm_num)

lemma accent_side_bounds (n : ℕ) (u : ℚ) (hu0 : 0 ≤ u) (hu1 : u < 1) :
    (n : ℚ) * 0.05 - 1 < ((⌊(n : ℚ) * (0.05 + u * 0.10)⌋ : ℤ) : ℚ) ∧
    ((⌊(n : ℚ) * (0.05 + u * 0.10)⌋ : ℤ) : ℚ) ≤ (n : ℚ) * 0.15 ∧
    (0 : ℤ) ≤ ⌊(n : ℚ) * (0.05 + u * 0.10)⌋ := by
  have hn : (0 : ℚ) ≤ (n : ℚ) := Nat.cast_nonneg n
  have harg_lo : (n : ℚ) * 0.05 ≤ (n : ℚ) * (0.05 + u * 0.10) := by nlinarith
  have harg_hi : (n : ℚ) * (0.05 + u * 0.10) ≤ (n : ℚ) * 0.15 := by nlinarith
  have hfl : ((⌊(n : ℚ) * (0.05 + u * 0.10)⌋ : ℤ) : ℚ) ≤ (n : ℚ) * (0.05 + u * 0.10) :=
    Int.floor_le _
  have hfg : (n : ℚ) * (0.05 + u * 0.10) - 1 < ((⌊(n : ℚ) * (0.05 + u * 0.10)⌋ : ℤ) : ℚ) :=
    Int.sub_one_lt_floor _
  refine ⟨by linarith, by linarith, ?_⟩
  exact Int.floor_nonneg.mpr (by nlinarith)

lemma accent_center_bounds (n : ℕ) (s : ℤ) (hs0 : 0 ≤ s) (hsn : (s : ℚ) ≤ (n : ℚ)) :
    0 ≤ ⌊((n : ℚ) - (s : ℚ)) / 2⌋ ∧
    ⌊((n : ℚ) - (s : ℚ)) / 2⌋ + s ≤ (n : ℤ) ∧
    0 ≤ (n : ℤ) - (2 * ⌊((n : ℚ) - (s : ℚ)) / 2⌋ + s) ∧
    (n : ℤ) - (2 * ⌊((n : ℚ) - (s : ℚ)) / 2⌋ + s) ≤ 1 := by
  set x : ℤ := ⌊((n : ℚ) - (s : ℚ)) / 2⌋ with hxdef
  have hfl : (x : ℚ) ≤ ((n : ℚ) - (s : ℚ)) / 2 := Int.floor_le _
  have hfg : ((n : ℚ) - (s : ℚ)) / 2 < (x : ℚ) + 1 := Int.lt_floor_add_one _
  have hx0 : 0 ≤ x := Int.floor_nonneg.mpr (by linarith)
  have h2x : (2 * x : ℚ) ≤ (n : ℚ) - (s : ℚ) := by linarith
  have h2x' : (n : ℚ) - (s : ℚ) < 2 * x + 2 := by linarith
  have hz1 : 2 * x ≤ (n : ℤ) - s := by exact_mod_cast h2x
  have hz2 : (n : ℤ) - s < 2 * x + 2 := by exact_mod_cast h2x'
  exact ⟨hx0, by omega, by omega, by omega⟩

/-- C6: for every target and every pair of uniform draws in `[0,1)`, the
accent rectangle satisfies `accentRectOk`. -/
theorem accent_rect_correct (W H : ℕ) (u v : ℚ)
    (hu0 : 0 ≤ u) (hu1 : u < 1) (hv0 : 0 ≤ v) (hv1 : v < 1) :
    accentRectOk W H u v := by
  obtain ⟨hwlo, hwhi, hw0⟩ := accent_side_bounds W u hu0 hu1
  obtain ⟨hhlo, hhhi, hh0⟩ := accent_side_bounds H v hv0 hv1
  have hWq : (0 : ℚ) ≤ (W : ℚ) := Nat.cast_nonneg W
  have hHq : (0 : ℚ) ≤ (H : ℚ) := Nat.cast_nonneg H
  have hwW : ((⌊(W : ℚ) * (0.05 + u * 0.10)⌋ : ℤ) : ℚ) ≤ (W : ℚ) := by linarith
  have hhH : ((⌊(H : ℚ) * (0.05 + v * 0.10)⌋ : ℤ) : ℚ) ≤ (H : ℚ) := by linarith
  obtain ⟨hx0, hxw, hcx0, hcx1⟩ := accent_center_bounds W _ hw0 hwW
  obtain ⟨hy0, hyh, hcy0, hcy1⟩ := accent_center_bounds H _ hh0 hhH
  exact ⟨⟨hwlo, hwhi⟩, ⟨hhlo, hhhi⟩, ⟨hx0, hxw, hy0, hyh⟩,
    ⟨hcx0, hcx1, hcy0, hcy1⟩, rfl⟩

/-- C6 witness: the 3840×2160 desktop target with draws `u = v = 1/2`. -/
theorem accent_rect_correct_witness : accentRectOk 3840 2160 (1/2) (1/2) :=
  accent_rect_correct 3840 2160 (1/2) (1/2) (by norm_num) (by norm_num)
    (by norm_num) (by norm_num)

set_option maxRecDepth 40000 in
/-- C1 counterexample: in `envSlotFail` slot 1's sampled image fetches but
fails to decode while the fixed fallback is fully available; the rejection
bypasses the un-awaited fallback logic, the pass discards slots 0 and 2 as
well — the whole previous state survives — and slot 0's output differs
from what the identical slot-0 data produces in `envAllOk`: a
pipeline-wide failure, not a single-slot one. -/
theorem generateAll_not_slot_isolated :
    generateAllWallpapers envSlotFail prevState = prevState ∧
    generateAllWallpapers envAllOk prevState ≠ prevState ∧
    (generateAllWallpapers envSlotFail prevState).wallpapers.getD 0 "" ≠
      (generateAllWallpapers envAllOk prevState).wallpapers.getD 0 "" := by
  refine ⟨?_, ?_, ?_⟩ <;> decide

lemma loadImageAsBlob_ok (env : GenEnv) (fb : Blob) (f : DecodedImage) (i : Nat)
    (hfb : env.fetchFallback = some fb) (hfbdec : env.decode fb = some f)
    (hdec : ∀ b, env.fetchPrimary (env.sample i) = some b → ∃ img, env.decode b = some img) :
    loadImageAsBlob env (env.sample i) = .ok (slotImage env f i) := by
  rw [loadImageAsBlob, slotImage]
  cases hpr : env.fetchPrimary (env.sample i) with
  | some b =>
    obtain ⟨img, himg⟩ := hdec b hpr
    simp [himg]
  | none => simp [hfb, hfbdec]

lemma generateWallpaper_with_fallback (env : GenEnv) (fb : Blob) (f : DecodedImage)
    (hfb : env.fetchFallback = some fb) (hfbdec : env.decode fb = some f)
    (hdec : ∀ i b, i < 3 → env.fetchPrimary (env.sample i) = some b →
      ∃ img, env.decode b = some img)
    (hp : ∀ i img, env.renderPreview i img ≠ "" ∧ env.renderPreview i img ≠ "data:," ∧
      100 ≤ (env.renderPreview i img).length)
    (hf : ∀ i img, env.renderFull i img ≠ "" ∧ env.renderFull i img ≠ "data:,")
    (i : Nat) (hi : i < 3) :
    generateWallpaper env i =
      .ok ⟨env.renderFull i (slotImage env f i), env.renderPreview i (slotImage env f i)⟩ := by
  have himg : loadImageAsBlob env (env.sample i) = .ok (slotImage env f i) :=
    loadImageAsBlob_ok env fb f i hfb hfbdec (fun b hb => hdec i b hi hb)
  obtain ⟨hp1, hp2, hp3⟩ := hp i (slotImage env f i)
  obtain ⟨hf1, hf2⟩ := hf i (slotImage env f i)
  have hcond1 : ¬(env.renderPreview i (slotImage env f i) = "" ∨
      env.renderPreview i (slotImage env f i) = "data:," ∨
      (env.renderPreview i (slotImage env f i)).length < 100) := by
    push_neg
    exact ⟨hp1, hp2, by omega⟩
  have hcond2 : ¬(env.renderFull i (slotImage env f i) = "" ∨
      env.renderFull i (slotImage env f i) = "data:," ∨
      env.renderPreview i (slotImage env f i) = "" ∨
      env.renderPreview i (slotImage env f i) = "data:,") := by
    push_neg
    exact ⟨hf1, hf2, hp1, hp2⟩
  simp only [generateWallpaper, himg, generatePreviewImage, if_neg hcond1, if_neg hcond2]

lemma generateWallpaper_decode_error (env : GenEnv) (i : Nat) (b : Blob)
    (hpr : env.fetchPrimary (env.sample i) = some b)
    (hd : env.decode b = none) :
    ∃ e, generateWallpaper env i = .error e := by
  have h1 : loadImageAsBlob env (env.sample i) = .error "Failed to load image from blob" := by
    simp [loadImageAsBlob, hpr, hd]
  exact ⟨"Failed to generate wallpaper: " ++ "Failed to load image from blob",
    by simp only [generateWallpaper, h1]⟩

lemma generateWallpaper_fallback_error (env : GenEnv) (i : Nat)
    (hpr : env.fetchPrimary (env.sample i) = none)
    (hfb : env.fetchFallback = none ∨
      ∃ fb, env.fetchFallback = some fb ∧ env.decode fb = none) :
    ∃ e, generateWallpaper env i = .error e := by
  rcases hfb with hfb | ⟨fb, hfb, hfbd⟩
  · have h1 : loadImageAsBlob env (env.sample i) =
        .error "Fallback image also failed to load" := by
      simp [loadImageAsBlob, hpr, hfb]
    exact ⟨"Failed to generate wallpaper: " ++ "Fallback image also failed to load",
      by simp only [generateWallpaper, h1]⟩
  · have h1 : loadImageAsBlob env (env.sample i) =
        .error "Fallback image failed to load from blob" := by
      simp [loadImageAsBlob, hpr, hfb, hfbd]
    exact ⟨"Failed to generate wallpaper: " ++ "Fallback image failed to load from blob",
      by simp only [generateWallpaper, h1]⟩

lemma generateAll_eq_of_error (env : GenEnv) (s : GenState)
    (h : ∃ i, i < 3 ∧ ∃ e, generateWallpaper env i = .error e) :
    generateAllWallpapers env s = s := by
  obtain ⟨i, hi, e, herr⟩ := h
  interval_cases i
  · rw [generateAllWallpapers, herr]
  · rw [generateAllWallpapers]
    cases h0 : generateWallpaper env 0 with
    | error e0 => rfl
    | ok r0 => rw [herr]
  · rw [generateAllWallpapers]
    cases h0 : generateWallpaper env 0 with
    | error e0 => rfl
    | ok r0 =>
      cases h1 : generateWallpaper env 1 with
      | error e1 => rfl
      | ok r1 => rw [herr]

/-- C1 amended: a *fetch-stage* failure of slot `i`'s sampled image is
caught and substituted with the fixed fallback image; when the fallback
fetches and decodes (and every fetched blob decodes), the pass installs
every slot's own pair, so no other slot is altered.  But a *decode*
failure of a successfully fetched sampled image rejects past the
un-awaited fallback logic — even with the fallback fully available — and,
just as when the fallback itself fails after a fetch failure, the single
pass-level catch discards all three slots' results and keeps the previous
state unchanged: a pipeline-wide failure. -/
theorem generateAll_degradation (env : GenEnv) (s : GenState) :
    (∀ fb f, env.fetchFallback = some fb → env.decode fb = some f →
      (∀ i b, i < 3 → env.fetchPrimary (env.sample i) = some b →
        ∃ img, env.decode b = some img) →
      (∀ i img, env.renderPreview i img ≠ "" ∧ env.renderPreview i img ≠ "data:," ∧
        100 ≤ (env.renderPreview i img).length) →
      (∀ i img, env.renderFull i img ≠ "" ∧ env.renderFull i img ≠ "data:,") →
      generateAllWallpapers env s = passResult env f) ∧
    (∀ i b, i < 3 → env.fetchPrimary (env.sample i) = some b →
      env.decode b = none →
      generateAllWallpapers env s = s) ∧
    (∀ i, i < 3 → env.fetchPrimary (env.sample i) = none →
      (env.fetchFallback = none ∨
        ∃ fb, env.fetchFallback = some fb ∧ env.decode fb = none) →
      generateAllWallpapers env s = s) := by
  refine ⟨?_, ?_, ?_⟩
  · intro fb f hfb hfbdec hdec hp hf
    rw [generateAllWallpapers,
      generateWallpaper_with_fallback env fb f hfb hfbdec hdec hp hf 0 (by omega),
      generateWallpaper_with_fallback env fb f hfb hfbdec hdec hp hf 1 (by omega),
      generateWallpaper_with_fallback env fb f hfb hfbdec hdec hp hf 2 (by omega)]
    rfl
  · intro i b hi hpr hd
    exact generateAll_eq_of_error env s ⟨i, hi, generateWallpaper_decode_error env i b hpr hd⟩
  · intro i hi hpr hfb
    exact generateAll_eq_of_error env s ⟨i, hi, generateWallpaper_fallback_error env i hpr hfb⟩

set_option maxRecDepth 40000 in
/-- C1 amended witness: with a loadable fallback, slot 1's fetch failure
degrades to the substitute and the pass installs all three slots; a decode
failure of slot 1's fetched image kills the whole pass even though
`envSlotFail`'s fallback is available. -/
theorem generateAll_degradation_witness :
    generateAllWallpapers envWithFallback prevState = passResult envWithFallback ⟨2⟩ ∧
    generateAllWallpapers envSlotFail prevState = prevState := by
  constructor
  · refine (generateAll_degradation envWithFallback prevState).1 ⟨9⟩ ⟨2⟩ rfl rfl ?_ ?_ ?_
    · intro i b hi hb
      exact ⟨⟨2⟩, rfl⟩
    · intro i img
      show previewStub ≠ "" ∧ previewStub ≠ "data:," ∧ 100 ≤ previewStub.length
      refine ⟨?_, ?_, ?_⟩ <;> decide
    · intro i img
      show "data:image/png;base64,fullstub" ≠ "" ∧
        "data:image/png;base64,fullstub" ≠ "data:,"
      refine ⟨?_, ?_⟩ <;> decide
  · exact (generateAll_degradation envSlotFail prevState).2.1 1 ⟨1⟩ (by omega)
      (by decide) (by decide)

/-- C2 counterexample: when the aggregation inside the `try` throws, the
handler still answers, with `success:false`, the Fallback Pool and an error
message — but its body carries no `timestamp` and no `cached` key, so the
claimed always-present field set does not hold. -/
theorem GETroute_error_body_lacks_fields :
    ((GETroute (emptyStore StoredResult) 1000 (.error "NASA API unreachable")
        (fun _ => true) (fun l => l)).1).timestamp = none ∧
    ((GETroute (emptyStore StoredResult) 1000 (.error "NASA API unreachable")
        (fun _ => true) (fun l => l)).1).cached = none ∧
    ((GETroute (emptyStore StoredResult) 1000 (.error "NASA API unreachable")
        (fun _ => true) (fun l => l)).1).success = false ∧
    ((GETroute (emptyStore StoredResult) 1000 (.error "NASA API unreachable")
        (fun _ => true) (fun l => l)).1).images = fallbackImages ∧
    ((GETroute (emptyStore StoredResult) 1000 (.error "NASA API unreachable")
        (fun _ => true) (fun l => l)).1).errorMsg = some "NASA API unreachable" :=
  ⟨rfl, rfl, rfl, rfl, rfl⟩

/-- C2 amended: every invocation returns a structured body.  On internal
failure it has `success:false`, the non-empty Fallback Pool, source
`fallback`, an error message, and no `timestamp`/`cached` keys.  On a cache
hit it reproduces the cached result with `cached:true`.  On a fresh success
it has `success:true`, `timestamp`, `cached:false`, images finalized from
the aggregated pool (all URL-valid, non-empty whenever fewer than 15
candidates were aggregated), and `total_returned` equal to the image
count. -/
theorem GETroute_structured (store : CacheStore StoredResult) (now : Nat)
    (agg : Except String AggOutcome) (validUrl : String → Bool)
    (shuffle : List String → List String)
    (hshuffle : ∀ l, (shuffle l).Perm l)
    (hvalid : ∀ u ∈ fallbackImages, validUrl u = true)
    (hstored : ∀ st, (cacheGet store cacheKey now).1 = some st → st.images ≠ []) :
    (∀ e, (cacheGet store cacheKey now).1 = none → agg = .error e →
      (GETroute store now agg validUrl shuffle).1 =
        ⟨false, fallbackImages, "fallback", 0, none, none, none,
         fallbackImages.length, none, none, none, some e⟩ ∧
      (GETroute store now agg validUrl shuffle).1.images ≠ []) ∧
    (∀ st, (cacheGet store cacheKey now).1 = some st →
      (GETroute store now agg validUrl shuffle).1 = bodyOfStored st now ∧
      (GETroute store now agg validUrl shuffle).1.success = true ∧
      (GETroute store now agg validUrl shuffle).1.timestamp = some st.timestamp ∧
      (GETroute store now agg validUrl shuffle).1.cached = some true ∧
      (GETroute store now agg validUrl shuffle).1.images ≠ []) ∧
    (∀ a, (cacheGet store cacheKey now).1 = none → agg = .ok a →
      (GETroute store now agg validUrl shuffle).1.success = true ∧
      (GETroute store now agg validUrl shuffle).1.timestamp = some now ∧
      (GETroute store now agg validUrl shuffle).1.cached = some false ∧
      (GETroute store now agg validUrl shuffle).1.errorMsg = none ∧
      (GETroute store now agg validUrl shuffle).1.images =
        finalizePool (a.apod ++ a.mars ++ a.earth) validUrl shuffle ∧
      (GETroute store now agg validUrl shuffle).1.totalReturned =
        (GETroute store now agg validUrl shuffle).1.images.length ∧
      (∀ u ∈ (GETroute store now agg validUrl shuffle).1.images, validUrl u = true) ∧
      ((a.apod ++ a.mars ++ a.earth).length < 15 →
        (GETroute store now agg validUrl shuffle).1.images ≠ [])) := by
  rcases hval : cacheGet store cacheKey now with ⟨v, store1⟩
  refine ⟨?_, ?_, ?_⟩
  · intro e h1 h2
    have hv : v = none := h1
    subst hv h2
    constructor
    · simp [GETroute, hval]
    · simp [GETroute, hval, fallbackImages]
  · intro st h1
    have hv : v = some st := h1
    subst hv
    have hbody : (GETroute store now agg validUrl shuffle).1 = bodyOfStored st now := by
      simp [GETroute, hval]
    refine ⟨hbody, by rw [hbody]; rfl, by rw [hbody]; rfl, by rw [hbody]; rfl, ?_⟩
    rw [hbody]
    exact hstored st (by rw [hval])
  · intro a h1 h2
    have hv : v = none := h1
    subst hv h2
    have hbody : (GETroute store now (.ok a) validUrl shuffle).1 =
        ⟨true, finalizePool (a.apod ++ a.mars ++ a.earth) validUrl shuffle,
         if 0 < (a.apod ++ a.mars ++ a.earth).length then "nasa_api" else "fallback",
         (a.apod ++ a.mars ++ a.earth).length, some a.apod.length,
         some a.mars.length, some a.earth.length,
         (finalizePool (a.apod ++ a.mars ++ a.earth) validUrl shuffle).length,
         some now, some false, none, none⟩ := by
      simp [GETroute, hval]
    obtain ⟨hfb_lt, _, _, hvalidmem, _, hlen⟩ :=
      finalizePool_props (a.apod ++ a.mars ++ a.earth) validUrl shuffle hshuffle
    refine ⟨by rw [hbody], by rw [hbody], by rw [hbody], by rw [hbody],
      by rw [hbody], by rw [hbody], ?_, ?_⟩
    · rw [hbody]
      exact hvalidmem
    · intro hlt
      rw [hbody]
      simp only []
      rw [← List.length_pos]
      rw [hlen]
      have hfb0 : ∃ u, u ∈ fallbackImages := ⟨_, List.mem_cons_self _ _⟩
      obtain ⟨u, hu⟩ := hfb0
      have humem : u ∈ mergedCandidates (a.apod ++ a.mars ++ a.earth) := by
        rw [hfb_lt hlt]
        exact List.mem_append_right _ hu
      have hucard :
          0 < ((mergedCandidates (a.apod ++ a.mars ++ a.earth)).filter validUrl).toFinset.card := by
        refine Finset.card_pos.mpr ⟨u, ?_⟩
        rw [List.mem_toFinset, List.mem_filter]
        exact ⟨humem, hvalid u hu⟩
      omega

set_option maxRecDepth 100000 in
/-- C2 amended witness: an empty cache and a thrown aggregation on one
hand, a fresh success over two aggregated URLs on the other. -/
theorem GETroute_structured_witness :
    ((GETroute (emptyStore StoredResult) 500 (.error "boom")
        (fun u => decide (u ≠ "")) (fun l => l)).1).images ≠ [] ∧
    ((GETroute (emptyStore StoredResult) 500
        (.ok ⟨["https://one.jpg"], ["https://two.jpg"], []⟩)
        (fun u => decide (u ≠ "")) (fun l => l)).1).timestamp = some 500 := by
  constructor
  · exact (((GETroute_structured (emptyStore StoredResult) 500 (.error "boom")
      (fun u => decide (u ≠ "")) (fun l => l)
      (fun l => List.Perm.refl l) (by decide)
      (fun st h => by simp [cacheGet, emptyStore] at h)).1) "boom" rfl rfl).2
  · exact ((GETroute_structured (emptyStore StoredResult) 500
      (.ok ⟨["https://one.jpg"], ["https://two.jpg"], []⟩)
      (fun u => decide (u ≠ "")) (fun l => l)
      (fun l => List.Perm.refl l) (by decide)
      (fun st h => by simp [cacheGet, emptyStore] at h)).2.2
      ⟨["https://one.jpg"], ["https://two.jpg"], []⟩ rfl rfl).2.1

end ZimaBlue
